import Mathlib

/-!
# Verification of the templatebot-aide event-routing and workflow core

This file gives a shallow embedding, in Lean 4, of the event router and the
prerender workflow handlers of the `lsst-templatebot-aide` service, together
with theorems about the embedded definitions.

Pure Python functions (`propose_number`, `clean_string_whitespace`, the
handle-matching regular expression) are translated into Lean functions.
Python's in-place list sort is made explicit by returning the final state of
the argument list alongside the result.  Each async workflow handler is
translated into a function from an explicit provider environment (recording
whether each remote call succeeds and what it returns) and an event record to
a pair of an `Except` result (the exception behaviour of the handler) and a
trace (the chat messages posted, the number of `create_repo` provider calls
made, and the render-ready events published).
-/

namespace TemplatebotAide

/-! ## Numbering policy: `propose_number`

Embedding of `propose_number` from
`src/templatebotaide/events/handlers/technoteprerender.py` (identical in the
`src/src` variant).  The Python function first sorts its argument *in place*
(`series_numbers.sort()`), returns 1 on an empty list, and otherwise runs

```
for i in range(n_documents):
    serial_number = series_numbers[i]
    if i == 0 and serial_number > 1:
        return 1
    if i + 1 == n_documents:
        return series_numbers[i] + 1
    if series_numbers[i + 1] != serial_number + 1:
        return serial_number + 1
raise RuntimeError('propose_number should not be in this state.')
```

The loop over indices `i` is embedded as structural recursion over the sorted
list; the terminal `raise RuntimeError` (reached exactly when the loop falls
through) is embedded as the `none` result of `scanPairs []`.  The `i == 0 and
serial_number > 1` test only fires on the first iteration, so it is placed
before entering the recursion.  Python's `list.sort` is an ascending sort;
since any two ascending sorts of a list of integers produce the same list, it
is embedded with `List.insertionSort (· ≤ ·)`, and the sorted list is the
final state of the caller's (mutated) argument.
-/

/-- One iteration of the index loop of `propose_number`, for indices past the
first `i == 0` check: `[a]` is the `i + 1 == n_documents` branch, the gap test
compares adjacent elements, and `[]` is the loop falling through to the
`RuntimeError`. -/
def scanPairs : List Int → Option Int
  | [] => none
  | [a] => some (a + 1)
  | a :: b :: rest => if b ≠ a + 1 then some (a + 1) else scanPairs (b :: rest)

/-- `propose_number`, with the mutation of the caller's list made explicit:
the first component is the returned value (`none` embeds the terminal
`RuntimeError`), the second component is the final state of the argument list
after the in-place `series_numbers.sort()`. -/
def propose_number_run (l : List Int) : Option Int × List Int :=
  let sorted := l.insertionSort (· ≤ ·)
  match sorted with
  | [] => (some 1, sorted)
  | a :: rest => (if 1 < a then some 1 else scanPairs (a :: rest), sorted)

/-- The value returned by `propose_number`. -/
def propose_number (l : List Int) : Option Int :=
  (propose_number_run l).1

/-! ## `clean_string_whitespace`

Embedding of `clean_string_whitespace` from
`src/templatebotaide/events/handlers/utilities.py` (identical in the
`src/src` variant):

```
text = text.strip()
text = re.sub(r"\s", " ", text)
return text
```

`str.strip()` removes leading and trailing whitespace characters, and
`re.sub(r"\s", " ", text)` replaces each whitespace character (the pattern
matches a *single* character, not a run) with one space. -/

/-- Code points treated as whitespace by Python's `str.strip` and by the
`\s` class of the `re` module on `str` patterns. -/
def pythonWhitespaceCodes : List Nat :=
  [0x09, 0x0a, 0x0b, 0x0c, 0x0d, 0x1c, 0x1d, 0x1e, 0x1f, 0x20, 0x85, 0xa0,
   0x1680, 0x2000, 0x2001, 0x2002, 0x2003, 0x2004, 0x2005, 0x2006, 0x2007,
   0x2008, 0x2009, 0x200a, 0x2028, 0x2029, 0x202f, 0x205f, 0x3000]

/-- Whether a character is Python whitespace. -/
def isPySpace (c : Char) : Bool :=
  pythonWhitespaceCodes.contains c.toNat

/-- Python `str.strip()` on the character list of a string: drop whitespace
from the front, then (via reversal) from the back. -/
def pyStrip (cs : List Char) : List Char :=
  ((cs.dropWhile isPySpace).reverse.dropWhile isPySpace).reverse

/-- Python `re.sub(r"\s", " ", ·)`: each whitespace character is replaced by
a single space character, one for one. -/
def reSubSpace (cs : List Char) : List Char :=
  cs.map (fun c => if isPySpace c then ' ' else c)

/-- Embedding of `clean_string_whitespace`. -/
def clean_string_whitespace (s : String) : String :=
  String.mk (reSubSpace (pyStrip s.data))

/-! ## Event router

Embedding of `route_event` from `src/templatebotaide/events/router.py`.  The
routing decision depends only on the topic string (compared against the
configured prerender and postrender topic names) and on the event's
`template_name`; the chosen handler (or no handler) is the routing result. -/

/-- `TECHNOTE_TEMPLATES` from `src/templatebotaide/events/router.py`. -/
def TECHNOTE_TEMPLATES : List String :=
  ["technote_rst", "technote_latex", "technote_aastex"]

/-- `DOCUSHARE_TEMPLATES` from `src/templatebotaide/events/router.py`. -/
def DOCUSHARE_TEMPLATES : List String :=
  ["test_report", "latex_lsstdoc"]

/-- The five workflow handlers `route_event` can dispatch to. -/
inductive Handler where
  | technotePrerender
  | documentPrerender
  | genericPrerender
  | technotePostrender
  | documentPostrender
deriving DecidableEq, Repr

/-- Embedding of `route_event`: given the configured prerender and
postrender topic names, the message's topic and the event's `template_name`,
return the handler that is invoked, or `none` when no handler is invoked. -/
def route_event (prerenderTopic postrenderTopic topic templateName : String) :
    Option Handler :=
  if topic = prerenderTopic then
    if templateName ∈ TECHNOTE_TEMPLATES then some .technotePrerender
    else if templateName ∈ DOCUSHARE_TEMPLATES then some .documentPrerender
    else some .genericPrerender
  else if topic = postrenderTopic then
    if templateName ∈ TECHNOTE_TEMPLATES then some .technotePostrender
    else if templateName ∈ DOCUSHARE_TEMPLATES then some .documentPostrender
    else none
  else none

/-! ## Document (DocuShare-class) prerender workflow

Embedding of `handle_document_prerender` from
`src/src/templatebotaide/events/handlers/documentprerender.py`.  Provider
calls (`create_repo`, `register_ltd_product`, `get_user_info`,
`post_message`, the Kafka publish) are collaborators; the environment records
whether each fallible call succeeds and what a successful call returns.  The
handler's observable behaviour is the returned `Except` value (the exception
that propagates, if any), the list of chat messages posted, the number of
`create_repo` calls made, and the render-ready events published. -/

/-- `KNOWN_TECHNOTE_HANDLES` from
`src/src/templatebotaide/events/handlers/documentprerender.py`. -/
def KNOWN_TECHNOTE_HANDLES : List String :=
  ["DMTN", "ITTN", "RTN", "PSTN", "SITCOMTN", "SMTN", "SQR", "TSTN"]

/-- Python `re.match(r"(?P<series>[A-Z]+)-(?P<serial_number>[0-9]+)", h)`:
anchored at the start only (no `$`), one or more ASCII capital letters, a
hyphen, one or more ASCII digits; trailing characters are permitted.  Since a
shorter letter run would put a letter where the hyphen must be, the maximal
runs are the only candidate, so the match is computed greedily. -/
def matchHandle (h : String) : Option (String × String) :=
  let cs := h.data
  let letters := cs.takeWhile Char.isUpper
  match cs.drop letters.length with
  | '-' :: rest =>
    let digits := rest.takeWhile Char.isDigit
    if letters.isEmpty ∨ digits.isEmpty then none
    else some (String.mk letters, String.mk digits)
  | _ => none

/-- The `variables` mapping of a document-prerender event: `none` embeds an
absent key, `some ""` a key present with an empty value. -/
structure DocVariables where
  title : String
  handle : Option String
  series : Option String
  serial_number : Option String
  author : Option String
  github_org : String
deriving DecidableEq, Repr

/-- A document-prerender event (the fields the handler reads). -/
structure DocEvent where
  «variables» : DocVariables
  slack_username : Option String
deriving DecidableEq, Repr

/-- Provider behaviour for one `handle_document_prerender` invocation. -/
structure DocEnv where
  createRepoOk : Bool
  repoHtmlUrl : String
  ltdOk : Bool
  ltdPublishedUrl : String
  userRealName : String
deriving DecidableEq, Repr

/-- The exceptions that can propagate out of `handle_document_prerender`:
the two `RuntimeError`s and the re-raised `gidgethub.GitHubException`. -/
inductive DocErr where
  | handleUndetermined
  | technoteSeries
  | gitHubException
deriving DecidableEq, Repr

/-- The chat messages `handle_document_prerender` can post, identified by
call site. -/
inductive DocMsg where
  | handleUndetermined
  | wrongTemplateFamily
  | repoApology
  | attemptedRepo (org repo : String)
  | docsUrl (url : String)
  | docsSetupFailed
deriving DecidableEq, Repr

/-- A published render-ready event derived from a document-prerender event. -/
structure DocRenderReady where
  «variables» : DocVariables
  github_repo : String
  retry_count : Nat
deriving DecidableEq, Repr

/-- The observable trace of one `handle_document_prerender` invocation. -/
structure DocTrace where
  messages : List DocMsg
  createRepoCalls : Nat
  published : List DocRenderReady
deriving DecidableEq, Repr

/-- `handle_match` of `handle_document_prerender`: the regular-expression
match is attempted only when the `handle` key is present. -/
def docHandleMatch (ev : DocEvent) : Option (String × String) :=
  match ev.variables.handle with
  | some h => matchHandle h
  | none => none

/-- The `series` local of `handle_document_prerender`: the event's `series`
variable when present and non-empty, else the series group of the handle
match, else the empty string. -/
def resolveSeries (ev : DocEvent) : String :=
  match ev.variables.series with
  | some s =>
    if s = "" then
      match docHandleMatch ev with
      | some m => m.1
      | none => ""
    else s
  | none =>
    match docHandleMatch ev with
    | some m => m.1
    | none => ""

/-- The `serial_number` local of `handle_document_prerender`, resolved the
same way as `resolveSeries`. -/
def resolveSerialNumber (ev : DocEvent) : String :=
  match ev.variables.serial_number with
  | some s =>
    if s = "" then
      match docHandleMatch ev with
      | some m => m.2
      | none => ""
    else s
  | none =>
    match docHandleMatch ev with
    | some m => m.2
    | none => ""

/-- Embedding of `handle_document_prerender`. -/
def handle_document_prerender (env : DocEnv) (ev : DocEvent) :
    Except DocErr Unit × DocTrace :=
  -- event["variables"]["title"] = clean_string_whitespace(...)
  let vars := { ev.variables with
                title := clean_string_whitespace ev.variables.title }
  let series := resolveSeries ev
  let serial_number := resolveSerialNumber ev
  -- handle determination: prefer the explicit variable, else build it from
  -- series and serial_number, else post a message and raise RuntimeError
  let handleRes : Except DocErr String :=
    match ev.variables.handle with
    | some h => .ok h
    | none =>
      if series = "" ∨ serial_number = "" then .error .handleUndetermined
      else .ok (series ++ "-" ++ serial_number)
  match handleRes with
  | .error e => (.error e, ⟨[.handleUndetermined], 0, []⟩)
  | .ok handle =>
    -- guard clause: a series that is a known technote handle means the
    -- wrong template family was selected; abort before creating anything
    if series ∈ KNOWN_TECHNOTE_HANDLES then
      (.error .technoteSeries, ⟨[.wrongTemplateFamily], 0, []⟩)
    else
      let org_name := vars.github_org
      let repo_name := handle
      if env.createRepoOk = false then
        (.error .gitHubException,
         ⟨match ev.slack_username with
          | some _ => [.repoApology, .attemptedRepo org_name repo_name]
          | none => [],
          1, []⟩)
      else
        let ltdMsgs : List DocMsg :=
          match ev.slack_username with
          | some _ =>
            if env.ltdOk then [.docsUrl env.ltdPublishedUrl]
            else [.docsSetupFailed]
          | none => []
        -- render_ready_message = deepcopy(event), then back-fill series and
        -- serial_number only when absent or empty, and author when absent
        let rrVars := { vars with
          series :=
            match vars.series with
            | none => some series
            | some s => if s = "" then some series else some s
          serial_number :=
            match vars.serial_number with
            | none => some serial_number
            | some s => if s = "" then some serial_number else some s
          author :=
            match vars.author with
            | none => some env.userRealName
            | some a => some a }
        (.ok (), ⟨ltdMsgs, 1, [⟨rrVars, env.repoHtmlUrl, 0⟩]⟩)

/-! ## Technote prerender workflow

Embedding of `handle_technote_prerender` from
`src/src/templatebotaide/events/handlers/technoteprerender.py`.  The author
registry download and lookup, the paginated organization repository listing
(whose per-series regular-expression scan yields the collected list of
integers), `create_repo`, `register_ltd_product`, `get_user_info` and the
Kafka publish are collaborators recorded in the environment. -/

/-- Python `f"{n:03d}"`: zero-pad to a total width of three characters,
sign included. -/
def format03d (n : Int) : String :=
  let pad (w : Nat) (s : String) : String :=
    if s.length < w then String.mk (List.replicate (w - s.length) '0') ++ s
    else s
  if n < 0 then "-" ++ pad 2 (toString (-n)) else pad 3 (toString n)

/-- The `variables` mapping of a technote-prerender event and of the derived
render-ready event. -/
structure TnVariables where
  title : String
  author_id : Option String
  github_org : String
  series : String
  serial_number : Option String
  first_author : Option String
  first_author_given : Option String
  first_author_family : Option String
  first_author_orcid : Option String
  first_author_affil_name : Option String
  first_author_affil_internal_id : Option String
  first_author_affil_address : Option String
deriving DecidableEq, Repr

/-- A technote-prerender event (the fields the handler reads). -/
structure TnEvent where
  «variables» : TnVariables
  slack_username : Option String
deriving DecidableEq, Repr

/-- The author record resolved from `authordb.yaml` on a successful lookup
(`AuthorDb.get_author`). -/
structure AuthorRecord where
  given_name : String
  family_name : String
  orcid : String
  affiliation_name : String
  affiliation_id : String
  affiliation_address : String
deriving DecidableEq, Repr

/-- Provider behaviour for one `handle_technote_prerender` invocation.
`seriesNumbers` is the list of integers collected by matching the compiled
`^<series>-(\d+)$` pattern against the organization's repository names. -/
structure TnEnv where
  authorLookupOk : Bool
  author : AuthorRecord
  seriesNumbers : List Int
  createRepoOk : Bool
  repoHtmlUrl : String
  ltdOk : Bool
  ltdPublishedUrl : String
  userRealName : String
deriving DecidableEq, Repr

/-- The exceptions that can propagate out of `handle_technote_prerender`:
the re-raised `KeyError` of the author lookup, the re-raised
`gidgethub.GitHubException` of `create_repo`, and the `RuntimeError` of
`propose_number`'s terminal branch. -/
inductive TnErr where
  | keyError
  | gitHubException
  | runtimeScan
deriving DecidableEq, Repr

/-- The chat messages `handle_technote_prerender` can post, identified by
call site; `inputEcho` is the `print_input` helper. -/
inductive TnMsg where
  | authorLookupFailed
  | repoApology
  | attemptedRepo (org repo : String)
  | docsUrl (url : String)
  | docsSetupFailed
  | inputEcho
deriving DecidableEq, Repr

/-- A published render-ready event derived from a technote-prerender
event. -/
structure TnRenderReady where
  «variables» : TnVariables
  github_repo : String
  retry_count : Nat
deriving DecidableEq, Repr

/-- The observable trace of one `handle_technote_prerender` invocation. -/
structure TnTrace where
  messages : List TnMsg
  createRepoCalls : Nat
  published : List TnRenderReady
deriving DecidableEq, Repr

/-- Embedding of `handle_technote_prerender`. -/
def handle_technote_prerender (env : TnEnv) (ev : TnEvent) :
    Except TnErr Unit × TnTrace :=
  -- event["variables"]["title"] = clean_string_whitespace(...)
  let vars := { ev.variables with
                title := clean_string_whitespace ev.variables.title }
  -- render_ready_message = deepcopy(event), taken before author enrichment
  -- author_id validation runs first, before any repository is created; on a
  -- KeyError the user is notified and the input echoed unconditionally
  if ev.variables.author_id.isSome ∧ env.authorLookupOk = false then
    (.error .keyError, ⟨[.authorLookupFailed, .inputEcho], 0, []⟩)
  else
    let rrVars :=
      if ev.variables.author_id.isSome then
        { vars with
          first_author_given := some env.author.given_name
          first_author_family := some env.author.family_name
          first_author_orcid := some env.author.orcid
          first_author_affil_name := some env.author.affiliation_name
          first_author_affil_internal_id := some env.author.affiliation_id
          first_author_affil_address := some env.author.affiliation_address }
      else vars
    let series := ev.variables.series.toLower
    match propose_number env.seriesNumbers with
    | none => (.error .runtimeScan, ⟨[], 0, []⟩)
    | some new_number =>
      let serial_number := format03d new_number
      let repo_name := series.toLower ++ "-" ++ serial_number
      -- ltd_slug equals repo_name; it parametrizes the collaborator calls
      -- (create_repo's homepage URL and register_ltd_product's slug)
      let org_name := ev.variables.github_org
      if env.createRepoOk = false then
        (.error .gitHubException,
         ⟨match ev.slack_username with
          | some _ => [.repoApology, .attemptedRepo org_name repo_name,
                       .inputEcho]
          | none => [],
          1, []⟩)
      else
        -- register_ltd_product(slug=ltd_slug, ...): its failure is caught
        let ltdMsgs : List TnMsg :=
          match ev.slack_username with
          | some _ =>
            if env.ltdOk then [.docsUrl env.ltdPublishedUrl]
            else [.docsSetupFailed, .inputEcho]
          | none => []
        let rrVars2 := { rrVars with
          serial_number := some serial_number
          first_author := some env.userRealName }
        (.ok (), ⟨ltdMsgs, 1, [⟨rrVars2, env.repoHtmlUrl, 0⟩]⟩)

/-! ## Generic prerender workflow

Embedding of `handle_generic_prerender` from
`src/templatebotaide/events/handlers/genericprerender.py`.  In the
`except gidgethub.GitHubException` branch of that handler, the second
`post_message` call interpolates `repo_info['html_url']` into its text, but
`repo_info` is the target of the assignment inside the failed `try` block and
is therefore unbound when the branch runs; evaluating the message text raises
`UnboundLocalError` after the first message has already been posted, and that
error — not the original provider exception — propagates.  The embedding
makes this explicit. -/

/-- The `variables` mapping of a generic-prerender event: `none` embeds an
absent key (direct indexing of an absent key raises `KeyError`). -/
structure GenVariables where
  github_org : Option String
  package_name : Option String
  name : Option String
deriving DecidableEq, Repr

/-- A generic-prerender event (the fields the handler reads). -/
structure GenEvent where
  template_name : String
  «variables» : GenVariables
  slack_username : Option String
deriving DecidableEq, Repr

/-- Provider behaviour for one `handle_generic_prerender` invocation. -/
structure GenEnv where
  createRepoOk : Bool
  repoHtmlUrl : String
deriving DecidableEq, Repr

/-- The exceptions that can propagate out of `handle_generic_prerender`. -/
inductive GenErr where
  | keyError
  | gitHubException
  | unboundLocal
deriving DecidableEq, Repr

/-- The chat messages `handle_generic_prerender` can post. -/
inductive GenMsg where
  | repoApology (username : String)
  | attemptedRepoUrl (url : String)
deriving DecidableEq, Repr

/-- The observable trace of one `handle_generic_prerender` invocation. -/
structure GenTrace where
  messages : List GenMsg
  createRepoCalls : Nat
  published : Nat
deriving DecidableEq, Repr

/-- Embedding of `handle_generic_prerender`. -/
def handle_generic_prerender (env : GenEnv) (ev : GenEvent) :
    Except GenErr Unit × GenTrace :=
  -- resolve the organization and repository name from the variables
  let names : Except GenErr (String × String) :=
    if ev.template_name = "stack_package" then
      match ev.variables.github_org, ev.variables.package_name with
      | some o, some p => .ok (o, p)
      | _, _ => .error .keyError
    else
      match ev.variables.github_org with
      | none => .error .keyError
      | some o =>
        match ev.variables.name with
        | none => .error .keyError
        | some n => .ok (o, n)
  match names with
  | .error e => (.error e, ⟨[], 0, 0⟩)
  | .ok _ =>
    if env.createRepoOk then
      -- deepcopy, inject github_repo / retry_count / initial_timestamp,
      -- publish to the render-ready topic
      (.ok (), ⟨[], 1, 1⟩)
    else
      match ev.slack_username with
      | some u =>
        -- the first message is posted; composing the second message
        -- evaluates the unbound local repo_info and raises UnboundLocalError
        (.error .unboundLocal, ⟨[.repoApology u], 1, 0⟩)
      | none =>
        -- no notifiable user: the GitHubException is re-raised directly
        (.error .gitHubException, ⟨[], 1, 0⟩)

/-! ## Helper lemmas -/

/-- The index loop of `propose_number` returns on every non-empty list. -/
theorem scanPairs_cons_isSome (a : Int) (l : List Int) :
    (scanPairs (a :: l)).isSome := by
  induction l generalizing a with
  | nil => simp [scanPairs]
  | cons b t ih =>
    rw [scanPairs]
    split
    · simp
    · exact ih b

/-- `propose_number` returns a value on every input list. -/
theorem propose_number_isSome (l : List Int) :
    ∃ r, propose_number l = some r := by
  rw [propose_number, propose_number_run]
  cases h : l.insertionSort (· ≤ ·) with
  | nil => exact ⟨1, rfl⟩
  | cons a rest =>
    simp only
    split
    · exact ⟨1, rfl⟩
    · have := scanPairs_cons_isSome a rest
      exact Option.isSome_iff_exists.mp this

/-- The head of `dropWhile p l` does not satisfy `p`. -/
theorem head?_dropWhile_false {α : Type} (p : α → Bool) (l : List α)
    (c : α) (h : (l.dropWhile p).head? = some c) : p c = false := by
  have hd := List.head?_dropWhile_not p l
  rw [h] at hd
  exact hd

/-- `dropWhile` only removes elements from the front, so when its result is
non-empty it has the same last element as the input. -/
theorem getLast?_dropWhile {α : Type} (p : α → Bool) (l : List α)
    (h : l.dropWhile p ≠ []) : (l.dropWhile p).getLast? = l.getLast? := by
  induction l with
  | nil => simp [List.dropWhile] at h
  | cons a t ih =>
    by_cases hpa : p a
    · rw [List.dropWhile_cons_of_pos hpa] at h ⊢
      cases t with
      | nil => simp [List.dropWhile] at h
      | cons b t2 => rw [ih h, List.getLast?_cons_cons]
    · rw [List.dropWhile_cons_of_neg hpa]

/-- `dropWhile` is the identity when the head does not satisfy `p`. -/
theorem dropWhile_eq_self_of_head {α : Type} (p : α → Bool) (l : List α)
    (h : ∀ c, l.head? = some c → p c = false) : l.dropWhile p = l := by
  cases l with
  | nil => rfl
  | cons a t =>
    exact List.dropWhile_cons_of_neg (by simp [h a rfl])

/-- `pyStrip` splits its input into whitespace margins around a core whose
two ends are not whitespace. -/
theorem pyStrip_decomp (d : List Char) :
    ∃ pre post : List Char,
      d = pre ++ pyStrip d ++ post ∧
      (∀ c ∈ pre, isPySpace c = true) ∧
      (∀ c ∈ post, isPySpace c = true) ∧
      (∀ c, (pyStrip d).head? = some c → isPySpace c = false) ∧
      (∀ c, (pyStrip d).getLast? = some c → isPySpace c = false) := by
  refine ⟨d.takeWhile isPySpace,
          ((d.dropWhile isPySpace).reverse.takeWhile isPySpace).reverse,
          ?_, ?_, ?_, ?_, ?_⟩
  · rw [pyStrip]
    conv_lhs => rw [← List.takeWhile_append_dropWhile (p := isPySpace) (l := d)]
    rw [List.append_assoc]
    congr 1
    conv_lhs =>
      rw [← List.reverse_reverse (d.dropWhile isPySpace),
          ← List.takeWhile_append_dropWhile
            (p := isPySpace) (l := (d.dropWhile isPySpace).reverse),
          List.reverse_append]
  · intro c hc
    exact List.mem_takeWhile_imp hc
  · intro c hc
    rw [List.mem_reverse] at hc
    exact List.mem_takeWhile_imp hc
  · intro c hc
    rw [pyStrip, List.head?_reverse] at hc
    have hne : (d.dropWhile isPySpace).reverse.dropWhile isPySpace ≠ [] := by
      intro he
      rw [he] at hc
      simp at hc
    rw [getLast?_dropWhile _ _ hne, List.getLast?_reverse] at hc
    exact head?_dropWhile_false _ _ _ hc
  · intro c hc
    rw [pyStrip, List.getLast?_reverse] at hc
    exact head?_dropWhile_false _ _ _ hc

/-- `pyStrip` is the identity on a list whose two ends are not whitespace. -/
theorem pyStrip_eq_self (l : List Char)
    (h1 : ∀ c, l.head? = some c → isPySpace c = false)
    (h2 : ∀ c, l.getLast? = some c → isPySpace c = false) :
    pyStrip l = l := by
  rw [pyStrip, dropWhile_eq_self_of_head _ _ h1,
      dropWhile_eq_self_of_head _ _
        (fun c hc => h2 c (by rwa [List.head?_reverse] at hc)),
      List.reverse_reverse]

/-- Replacing whitespace characters by spaces is idempotent. -/
theorem reSubSpace_idem (l : List Char) :
    reSubSpace (reSubSpace l) = reSubSpace l := by
  rw [reSubSpace, reSubSpace, List.map_map]
  refine List.map_congr_left ?_
  intro c _
  by_cases h : isPySpace c
  · have hs : isPySpace ' ' = true := by decide
    simp [Function.comp, h, hs]
  · simp [Function.comp, h]

/-- `reSubSpace` maps non-whitespace characters to themselves. -/
theorem reSubSpace_fixes (c : Char) (h : isPySpace c = false) :
    (if isPySpace c then ' ' else c) = c := by
  simp [h]

/-- The second component of `propose_number_run` (the final state of the
caller's list) is the ascending sort of the input. -/
theorem propose_number_run_snd (l : List Int) :
    (propose_number_run l).2 = l.insertionSort (· ≤ ·) := by
  rw [propose_number_run]
  cases h : l.insertionSort (· ≤ ·) <;> simp [h]

/-- Unfolding equation for `propose_number` in terms of the sorted input. -/
theorem propose_number_eq (l : List Int) :
    propose_number l =
      match l.insertionSort (· ≤ ·) with
      | [] => some 1
      | a :: rest => if 1 < a then some 1 else scanPairs (a :: rest) := by
  rw [propose_number, propose_number_run]
  cases l.insertionSort (· ≤ ·) <;> simp

/-- On a strictly increasing list `a :: l`, the index loop of
`propose_number` returns the least integer above `a` that is missing from
the list. -/
theorem scanPairs_spec (a : Int) (l : List Int)
    (h : (a :: l).Sorted (· < ·)) :
    ∃ r, scanPairs (a :: l) = some r ∧ a < r ∧ r ∉ a :: l ∧
      ∀ k : Int, a < k → k < r → k ∈ a :: l := by
  induction l generalizing a with
  | nil =>
    refine ⟨a + 1, rfl, by omega, ?_, ?_⟩
    · intro hmem
      simp only [List.mem_singleton] at hmem
      omega
    · intro k hk1 hk2
      exfalso
      omega
  | cons b t ih =>
    rw [List.sorted_cons] at h
    obtain ⟨hab, hbt⟩ := h
    have hab2 : a < b := hab b (List.mem_cons_self b t)
    by_cases hgap : b = a + 1
    · have heq : scanPairs (a :: b :: t) = scanPairs (b :: t) := by
        rw [scanPairs, if_neg (by omega)]
      obtain ⟨r, hr, hbr, hnotmem, hcover⟩ := ih b hbt
      refine ⟨r, heq ▸ hr, by omega, ?_, ?_⟩
      · intro hmem
        rcases List.mem_cons.mp hmem with h1 | h2
        · omega
        · exact hnotmem h2
      · intro k hk1 hk2
        by_cases hkb : k = b
        · subst hkb
          exact List.mem_cons_of_mem a (List.mem_cons_self k t)
        · exact List.mem_cons_of_mem a (hcover k (by omega) hk2)
    · have heq : scanPairs (a :: b :: t) = some (a + 1) := by
        rw [scanPairs, if_pos (by omega)]
      refine ⟨a + 1, heq, by omega, ?_, ?_⟩
      · intro hmem
        rcases List.mem_cons.mp hmem with h1 | hmem2
        · omega
        rcases List.mem_cons.mp hmem2 with h2 | h3
        · omega
        · have := (List.sorted_cons.mp hbt).1 _ h3
          omega
      · intro k hk1 hk2
        exfalso
        omega

/-! ## Claim theorems -/

/-- C9: the internal-invariant failure branch of `propose_number` (the
terminal `RuntimeError` raised when the scan completes without returning,
embedded as the `none` result) is unreachable: for every input list of
integers the function returns a value. -/
theorem propose_number_terminal_branch_unreachable (l : List Int) :
    ∃ r, propose_number l = some r :=
  propose_number_isSome l

/-- C2: `route_event` invokes exactly one workflow handler or none, as a
total function of the topic and the template name: on the prerender topic it
picks the technote-prerender handler iff the template name is in the technote
set, else the document-prerender handler iff it is in the DocuShare set, else
the generic-prerender handler; on the postrender topic the same two sets pick
the postrender handlers and any other template name invokes no handler; any
other topic invokes no handler. -/
theorem route_event_total_dispatch
    (pre post topic tn : String) (hne : pre ≠ post) :
    (topic = pre →
      route_event pre post topic tn =
        some (if tn ∈ TECHNOTE_TEMPLATES then Handler.technotePrerender
              else if tn ∈ DOCUSHARE_TEMPLATES then Handler.documentPrerender
              else Handler.genericPrerender)) ∧
    (topic = post →
      route_event pre post topic tn =
        (if tn ∈ TECHNOTE_TEMPLATES then some Handler.technotePostrender
         else if tn ∈ DOCUSHARE_TEMPLATES then some Handler.documentPostrender
         else none)) ∧
    (topic ≠ pre → topic ≠ post → route_event pre post topic tn = none) := by
  refine ⟨?_, ?_, ?_⟩
  · intro h
    subst h
    rw [route_event, if_pos rfl]
    by_cases h1 : tn ∈ TECHNOTE_TEMPLATES <;>
      by_cases h2 : tn ∈ DOCUSHARE_TEMPLATES <;>
      simp [h1, h2]
  · intro h
    subst h
    rw [route_event, if_neg (Ne.symm hne), if_pos rfl]
  · intro h1 h2
    rw [route_event, if_neg h1, if_neg h2]

/-- Witness for C2 at concrete inputs: the configured topic names are
distinct and a technote template on the prerender topic dispatches to the
technote-prerender handler. -/
theorem route_event_total_dispatch_witness :
    (("templatebot-prerender" : String) ≠ "templatebot-postrender") ∧
    (("templatebot-prerender" : String) = "templatebot-prerender" →
      route_event "templatebot-prerender" "templatebot-postrender"
          "templatebot-prerender" "technote_rst" =
        some (if ("technote_rst" : String) ∈ TECHNOTE_TEMPLATES
              then Handler.technotePrerender
              else if ("technote_rst" : String) ∈ DOCUSHARE_TEMPLATES
              then Handler.documentPrerender
              else Handler.genericPrerender)) ∧
    (("templatebot-prerender" : String) = "templatebot-postrender" →
      route_event "templatebot-prerender" "templatebot-postrender"
          "templatebot-prerender" "technote_rst" =
        (if ("technote_rst" : String) ∈ TECHNOTE_TEMPLATES
         then some Handler.technotePostrender
         else if ("technote_rst" : String) ∈ DOCUSHARE_TEMPLATES
         then some Handler.documentPostrender
         else none)) ∧
    (("templatebot-prerender" : String) ≠ "templatebot-prerender" →
      ("templatebot-prerender" : String) ≠ "templatebot-postrender" →
      route_event "templatebot-prerender" "templatebot-postrender"
          "templatebot-prerender" "technote_rst" = none) :=
  ⟨by decide,
   route_event_total_dispatch "templatebot-prerender" "templatebot-postrender"
     "templatebot-prerender" "technote_rst" (by decide)⟩

/-- C6 counterexample: `clean_string_whitespace` does not collapse an
interior run of whitespace to a single space; on `"a  b"` it returns the
input unchanged (two adjacent spaces remain) instead of `"a b"`. -/
theorem clean_string_whitespace_counterexample :
    clean_string_whitespace "a  b" = "a  b" ∧
    clean_string_whitespace "a  b" ≠ "a b" := by
  constructor
  · rfl
  · decide

/-- C6 amended: for every input string, `clean_string_whitespace` removes
leading and trailing whitespace and replaces each remaining whitespace
character by a single space character, one for one (a run of `n` interior
whitespace characters becomes `n` spaces, not one). -/
theorem clean_string_whitespace_amended (s : String) :
    ∃ pre mid post : List Char,
      s.data = pre ++ mid ++ post ∧
      (∀ c ∈ pre, isPySpace c = true) ∧
      (∀ c ∈ post, isPySpace c = true) ∧
      (∀ c, mid.head? = some c → isPySpace c = false) ∧
      (∀ c, mid.getLast? = some c → isPySpace c = false) ∧
      (clean_string_whitespace s).data =
        mid.map (fun c => if isPySpace c then ' ' else c) := by
  obtain ⟨pre, post, hsplit, hpre, hpost, hhead, hlast⟩ :=
    pyStrip_decomp s.data
  exact ⟨pre, pyStrip s.data, post, hsplit, hpre, hpost, hhead, hlast, rfl⟩

/-- C10: `clean_string_whitespace` is idempotent. -/
theorem clean_string_whitespace_idem (s : String) :
    clean_string_whitespace (clean_string_whitespace s) =
      clean_string_whitespace s := by
  obtain ⟨pre, post, hsplit, hpre, hpost, hhead, hlast⟩ :=
    pyStrip_decomp s.data
  have hh : ∀ c, (reSubSpace (pyStrip s.data)).head? = some c →
      isPySpace c = false := by
    intro c hc
    rw [reSubSpace, List.head?_map] at hc
    cases hm : (pyStrip s.data).head? with
    | none => rw [hm] at hc; simp at hc
    | some c0 =>
      rw [hm] at hc
      have h0 := hhead c0 hm
      rw [Option.map_some', reSubSpace_fixes c0 h0] at hc
      cases hc
      exact h0
  have hl : ∀ c, (reSubSpace (pyStrip s.data)).getLast? = some c →
      isPySpace c = false := by
    intro c hc
    rw [reSubSpace, List.getLast?_map] at hc
    cases hm : (pyStrip s.data).getLast? with
    | none => rw [hm] at hc; simp at hc
    | some c0 =>
      rw [hm] at hc
      have h0 := hlast c0 hm
      rw [Option.map_some', reSubSpace_fixes c0 h0] at hc
      cases hc
      exact h0
  have hstrip : pyStrip (reSubSpace (pyStrip s.data)) =
      reSubSpace (pyStrip s.data) := pyStrip_eq_self _ hh hl
  calc clean_string_whitespace (clean_string_whitespace s)
      = String.mk (reSubSpace (pyStrip (reSubSpace (pyStrip s.data)))) := rfl
    _ = String.mk (reSubSpace (reSubSpace (pyStrip s.data))) := by
        rw [hstrip]
    _ = String.mk (reSubSpace (pyStrip s.data)) := by rw [reSubSpace_idem]
    _ = clean_string_whitespace s := rfl

/-- C8 counterexample: `propose_number` does not sort a local copy: it sorts
the caller's list in place, so after `propose_number([2, 1])` the caller's
list is `[1, 2]`, not the original `[2, 1]`. -/
theorem propose_number_mutation_counterexample :
    (propose_number_run [2, 1]).2 = [1, 2] ∧
    ([1, 2] : List Int) ≠ [2, 1] := by
  constructor
  · rfl
  · decide

/-- C8 amended: `propose_number` sorts its argument in place: after the call
the caller's list holds the same elements (a permutation of the original) in
ascending order, and it is left unchanged exactly when it was already
sorted. -/
theorem propose_number_sorts_in_place (l : List Int) :
    (propose_number_run l).2.Perm l ∧
    (propose_number_run l).2.Sorted (· ≤ ·) ∧
    (l.Sorted (· ≤ ·) → (propose_number_run l).2 = l) := by
  rw [propose_number_run_snd]
  exact ⟨List.perm_insertionSort _ l, List.sorted_insertionSort _ l,
         fun h => h.insertionSort_eq⟩

/-- Witness for C8's amended theorem at the concrete input `[2, 1]`. -/
theorem propose_number_sorts_in_place_witness :
    (propose_number_run [2, 1]).2.Perm [2, 1] ∧
    (propose_number_run [2, 1]).2.Sorted (· ≤ ·) ∧
    (([2, 1] : List Int).Sorted (· ≤ ·) →
      (propose_number_run [2, 1]).2 = [2, 1]) :=
  propose_number_sorts_in_place [2, 1]

/-- C1 counterexample: on a list with a duplicate, `propose_number` can
return an element of the input: `propose_number([1, 2, 2, 3])` returns `3`,
which is in the list (and `4`, the smallest unused positive integer, is
not returned). -/
theorem propose_number_duplicate_counterexample :
    propose_number [1, 2, 2, 3] = some 3 ∧
    (3 : Int) ∈ ([1, 2, 2, 3] : List Int) := by
  constructor
  · rfl
  · decide

/-- C1 amended: for every *duplicate-free* list of non-negative integers
(not necessarily sorted), `propose_number` returns the smallest positive
integer not present in the list: the result is at least 1, is not an element
of the input, and every positive integer below it is an element of the
input; in particular the four enumerated examples hold. -/
theorem propose_number_smallest_unused :
    (∀ l : List Int, l.Nodup → (∀ x ∈ l, 0 ≤ x) →
      ∃ r, propose_number l = some r ∧ 1 ≤ r ∧ r ∉ l ∧
        ∀ k : Int, 1 ≤ k → k < r → k ∈ l) ∧
    propose_number [] = some 1 ∧
    propose_number [1, 2, 4] = some 3 ∧
    propose_number [2, 4] = some 1 ∧
    propose_number [1, 2, 3] = some 4 := by
  refine ⟨?_, rfl, rfl, rfl, rfl⟩
  intro l hnodup hnonneg
  have hperm : List.Perm (l.insertionSort (· ≤ ·)) l :=
    List.perm_insertionSort _ l
  have hsorted : (l.insertionSort (· ≤ ·)).Sorted (· ≤ ·) :=
    List.sorted_insertionSort _ l
  have hnodup2 : (l.insertionSort (· ≤ ·)).Nodup := hperm.nodup_iff.mpr hnodup
  have hlt : (l.insertionSort (· ≤ ·)).Sorted (· < ·) :=
    hsorted.lt_of_le hnodup2
  rw [propose_number_eq]
  cases hs : l.insertionSort (· ≤ ·) with
  | nil =>
    rw [hs] at hperm
    have hl : l = [] := hperm.symm.eq_nil
    subst hl
    refine ⟨1, rfl, le_refl 1, by simp, ?_⟩
    intro k hk1 hk2
    exfalso
    omega
  | cons a rest =>
    rw [hs] at hperm hlt
    simp only
    by_cases ha : 1 < a
    · rw [if_pos ha]
      refine ⟨1, rfl, le_refl 1, ?_, ?_⟩
      · intro hmem
        have hmem2 : (1 : Int) ∈ a :: rest := hperm.mem_iff.mpr hmem
        rcases List.mem_cons.mp hmem2 with h1 | h2
        · omega
        · have := (List.sorted_cons.mp hlt).1 _ h2
          omega
      · intro k hk1 hk2
        exfalso
        omega
    · rw [if_neg ha]
      obtain ⟨r, hr, har, hnotmem, hcover⟩ := scanPairs_spec a rest hlt
      have ha0 : 0 ≤ a :=
        hnonneg a (hperm.mem_iff.mp (List.mem_cons_self a rest))
      refine ⟨r, hr, by omega, ?_, ?_⟩
      · intro hmem
        exact hnotmem (hperm.mem_iff.mpr hmem)
      · intro k hk1 hk2
        by_cases hka : a < k
        · exact hperm.mem_iff.mp (hcover k hka hk2)
        · have hk_eq : k = a := by omega
          subst hk_eq
          exact hperm.mem_iff.mp (List.mem_cons_self k rest)

/-- Witness for C1's amended theorem at the concrete input `[1, 2, 4]`. -/
theorem propose_number_smallest_unused_witness :
    ([1, 2, 4] : List Int).Nodup ∧
    (∀ x ∈ ([1, 2, 4] : List Int), 0 ≤ x) ∧
    (∃ r, propose_number [1, 2, 4] = some r ∧ 1 ≤ r ∧
      r ∉ ([1, 2, 4] : List Int) ∧
      ∀ k : Int, 1 ≤ k → k < r → k ∈ ([1, 2, 4] : List Int)) :=
  ⟨by decide, by decide,
   propose_number_smallest_unused.1 [1, 2, 4] (by decide) (by decide)⟩

/-- C3: in the technote-prerender workflow (with the author lookup not
failing), a `create_repo` failure is fatal — the exception propagates and no
render-ready event is published — while a docs-product-registration failure
is recoverable — the handler returns normally and still publishes exactly
one render-ready event. -/
theorem technote_failure_asymmetry (env : TnEnv) (ev : TnEvent)
    (hauthor : env.authorLookupOk = true) :
    (env.createRepoOk = false →
      (handle_technote_prerender env ev).1 =
        Except.error TnErr.gitHubException ∧
      (handle_technote_prerender env ev).2.published = []) ∧
    (env.createRepoOk = true → env.ltdOk = false →
      (handle_technote_prerender env ev).1 = Except.ok () ∧
      (handle_technote_prerender env ev).2.published.length = 1) := by
  obtain ⟨n, hn⟩ := propose_number_isSome env.seriesNumbers
  constructor
  · intro hcr
    constructor <;>
      · unfold handle_technote_prerender
        simp only [hauthor, hn, hcr]
        simp
  · intro hcr hltd
    constructor <;>
      · unfold handle_technote_prerender
        simp only [hauthor, hn, hcr, hltd]
        simp

/-- Witness for C3 at concrete inputs: one environment where `create_repo`
fails and one where only docs registration fails. -/
theorem technote_failure_asymmetry_witness :
    (TnEnv.authorLookupOk
        ⟨true, ⟨"g", "f", "o", "an", "ai", "aa"⟩, [1, 2], false,
         "https://github.com/lsst/sqr-003", true,
         "https://sqr-003.lsst.io", "A User"⟩ = true) ∧
    ((handle_technote_prerender
        ⟨true, ⟨"g", "f", "o", "an", "ai", "aa"⟩, [1, 2], false,
         "https://github.com/lsst/sqr-003", true,
         "https://sqr-003.lsst.io", "A User"⟩
        ⟨⟨"A title", none, "lsst", "SQR", none, none, none, none, none,
          none, none, none⟩, some "user"⟩).1 =
      Except.error TnErr.gitHubException ∧
     (handle_technote_prerender
        ⟨true, ⟨"g", "f", "o", "an", "ai", "aa"⟩, [1, 2], false,
         "https://github.com/lsst/sqr-003", true,
         "https://sqr-003.lsst.io", "A User"⟩
        ⟨⟨"A title", none, "lsst", "SQR", none, none, none, none, none,
          none, none, none⟩, some "user"⟩).2.published = []) ∧
    ((handle_technote_prerender
        ⟨true, ⟨"g", "f", "o", "an", "ai", "aa"⟩, [1, 2], true,
         "https://github.com/lsst/sqr-003", false,
         "https://sqr-003.lsst.io", "A User"⟩
        ⟨⟨"A title", none, "lsst", "SQR", none, none, none, none, none,
          none, none, none⟩, some "user"⟩).1 = Except.ok () ∧
     (handle_technote_prerender
        ⟨true, ⟨"g", "f", "o", "an", "ai", "aa"⟩, [1, 2], true,
         "https://github.com/lsst/sqr-003", false,
         "https://sqr-003.lsst.io", "A User"⟩
        ⟨⟨"A title", none, "lsst", "SQR", none, none, none, none, none,
          none, none, none⟩, some "user"⟩).2.published.length = 1) :=
  ⟨rfl,
   (technote_failure_asymmetry _ _ rfl).1 rfl,
   (technote_failure_asymmetry _ _ rfl).2 rfl rfl⟩

/-- C4: for every document-prerender event whose resolved series is in the
known technote-handle-prefix set, the handler raises before the
repository-creation call is ever made: `create_repo` is invoked zero times
and no render-ready event is published. -/
theorem document_prerender_technote_guard (env : DocEnv) (ev : DocEvent)
    (h : resolveSeries ev ∈ KNOWN_TECHNOTE_HANDLES) :
    (∃ e, (handle_document_prerender env ev).1 = Except.error e) ∧
    (handle_document_prerender env ev).2.createRepoCalls = 0 ∧
    (handle_document_prerender env ev).2.published = [] := by
  unfold handle_document_prerender
  cases hh : ev.variables.handle with
  | some hdl =>
    simp only [hh, h]
    exact ⟨⟨DocErr.technoteSeries, by simp⟩, by simp, by simp⟩
  | none =>
    by_cases hser : resolveSeries ev = "" ∨ resolveSerialNumber ev = ""
    · simp only [hh, if_pos hser]
      exact ⟨⟨DocErr.handleUndetermined, by simp⟩, by simp, by simp⟩
    · simp only [hh, if_neg hser, h]
      exact ⟨⟨DocErr.technoteSeries, by simp⟩, by simp, by simp⟩

/-- Witness for C4 at a concrete event whose series is the technote prefix
`SQR`. -/
theorem document_prerender_technote_guard_witness :
    resolveSeries ⟨⟨"A title", some "SQR-000", some "SQR", none, none,
        "lsst"⟩, some "user"⟩ ∈ KNOWN_TECHNOTE_HANDLES ∧
    ((∃ e, (handle_document_prerender
        ⟨true, "https://github.com/lsst/sqr-000", true,
         "https://sqr-000.lsst.io", "A User"⟩
        ⟨⟨"A title", some "SQR-000", some "SQR", none, none, "lsst"⟩,
         some "user"⟩).1 = Except.error e) ∧
     (handle_document_prerender
        ⟨true, "https://github.com/lsst/sqr-000", true,
         "https://sqr-000.lsst.io", "A User"⟩
        ⟨⟨"A title", some "SQR-000", some "SQR", none, none, "lsst"⟩,
         some "user"⟩).2.createRepoCalls = 0 ∧
     (handle_document_prerender
        ⟨true, "https://github.com/lsst/sqr-000", true,
         "https://sqr-000.lsst.io", "A User"⟩
        ⟨⟨"A title", some "SQR-000", some "SQR", none, none, "lsst"⟩,
         some "user"⟩).2.published = []) :=
  ⟨by decide, document_prerender_technote_guard _ _ (by decide)⟩

/-- C5: render-ready enrichment is additive for the resolved placeholder
fields: whenever the document-prerender handler publishes a render-ready
event, the published `variables.series` (resp. `variables.serial_number`)
equals the original event value whenever that value is present and
non-empty, and the derived value is written only when the field is absent or
the empty string. -/
theorem document_enrichment_additive (env : DocEnv) (ev : DocEvent)
    (m : DocRenderReady)
    (hm : (handle_document_prerender env ev).2.published = [m]) :
    (∀ s, ev.variables.series = some s → s ≠ "" →
      m.variables.series = some s) ∧
    ((ev.variables.series = none ∨ ev.variables.series = some "") →
      m.variables.series = some (resolveSeries ev)) ∧
    (∀ s, ev.variables.serial_number = some s → s ≠ "" →
      m.variables.serial_number = some s) ∧
    ((ev.variables.serial_number = none ∨
        ev.variables.serial_number = some "") →
      m.variables.serial_number = some (resolveSerialNumber ev)) := by
  unfold handle_document_prerender at hm
  cases hh : ev.variables.handle with
  | none =>
    rw [hh] at hm
    by_cases hser : resolveSeries ev = "" ∨ resolveSerialNumber ev = ""
    · simp only [if_pos hser] at hm
      simp at hm
    · simp only [if_neg hser] at hm
      by_cases hg : resolveSeries ev ∈ KNOWN_TECHNOTE_HANDLES
      · simp [hg] at hm
      · simp only [if_neg hg] at hm
        by_cases hcr : env.createRepoOk = false
        · simp [hcr] at hm
        · simp only [if_neg hcr] at hm
          simp only [List.cons.injEq, and_true] at hm
          subst hm
          refine ⟨?_, ?_, ?_, ?_⟩
          · intro s hs hns
            simp [hs, hns]
          · intro hor
            rcases hor with h0 | h0 <;> simp [h0]
          · intro s hs hns
            simp [hs, hns]
          · intro hor
            rcases hor with h0 | h0 <;> simp [h0]
  | some hdl =>
    rw [hh] at hm
    by_cases hg : resolveSeries ev ∈ KNOWN_TECHNOTE_HANDLES
    · simp [hg] at hm
    · simp only [if_neg hg] at hm
      by_cases hcr : env.createRepoOk = false
      · simp [hcr] at hm
      · simp only [if_neg hcr] at hm
        simp only [List.cons.injEq, and_true] at hm
        subst hm
        refine ⟨?_, ?_, ?_, ?_⟩
        · intro s hs hns
          simp [hs, hns]
        · intro hor
          rcases hor with h0 | h0 <;> simp [h0]
        · intro s hs hns
          simp [hs, hns]
        · intro hor
          rcases hor with h0 | h0 <;> simp [h0]

/-- Witness for C5 at a concrete document event whose `series` is present
and non-empty and whose `serial_number` is absent. -/
theorem document_enrichment_additive_witness :
    ((handle_document_prerender
        ⟨true, "https://github.com/lsst/ldm-151", true,
         "https://ldm-151.lsst.io", "A User"⟩
        ⟨⟨"A title", some "LDM-151", some "LDM", none, none, "lsst"⟩,
         none⟩).2.published =
      [⟨⟨"A title", some "LDM-151", some "LDM", some "151", some "A User",
         "lsst"⟩, "https://github.com/lsst/ldm-151", 0⟩]) ∧
    ((∀ s, (⟨⟨"A title", some "LDM-151", some "LDM", none, none, "lsst"⟩,
          none⟩ : DocEvent).variables.series = some s → s ≠ "" →
        (⟨⟨"A title", some "LDM-151", some "LDM", some "151", some "A User",
          "lsst"⟩, "https://github.com/lsst/ldm-151", 0⟩ :
          DocRenderReady).variables.series = some s) ∧
     (((⟨⟨"A title", some "LDM-151", some "LDM", none, none, "lsst"⟩,
          none⟩ : DocEvent).variables.series = none ∨
       (⟨⟨"A title", some "LDM-151", some "LDM", none, none, "lsst"⟩,
          none⟩ : DocEvent).variables.series = some "") →
        (⟨⟨"A title", some "LDM-151", some "LDM", some "151", some "A User",
          "lsst"⟩, "https://github.com/lsst/ldm-151", 0⟩ :
          DocRenderReady).variables.series =
          some (resolveSeries ⟨⟨"A title", some "LDM-151", some "LDM", none,
            none, "lsst"⟩, none⟩)) ∧
     (∀ s, (⟨⟨"A title", some "LDM-151", some "LDM", none, none, "lsst"⟩,
          none⟩ : DocEvent).variables.serial_number = some s → s ≠ "" →
        (⟨⟨"A title", some "LDM-151", some "LDM", some "151", some "A User",
          "lsst"⟩, "https://github.com/lsst/ldm-151", 0⟩ :
          DocRenderReady).variables.serial_number = some s) ∧
     (((⟨⟨"A title", some "LDM-151", some "LDM", none, none, "lsst"⟩,
          none⟩ : DocEvent).variables.serial_number = none ∨
       (⟨⟨"A title", some "LDM-151", some "LDM", none, none, "lsst"⟩,
          none⟩ : DocEvent).variables.serial_number = some "") →
        (⟨⟨"A title", some "LDM-151", some "LDM", some "151", some "A User",
          "lsst"⟩, "https://github.com/lsst/ldm-151", 0⟩ :
          DocRenderReady).variables.serial_number =
          some (resolveSerialNumber ⟨⟨"A title", some "LDM-151", some "LDM",
            none, none, "lsst"⟩, none⟩))) :=
  ⟨by decide,
   document_enrichment_additive
     ⟨true, "https://github.com/lsst/ldm-151", true,
      "https://ldm-151.lsst.io", "A User"⟩
     ⟨⟨"A title", some "LDM-151", some "LDM", none, none, "lsst"⟩, none⟩
     ⟨⟨"A title", some "LDM-151", some "LDM", some "151", some "A User",
       "lsst"⟩, "https://github.com/lsst/ldm-151", 0⟩
     (by decide)⟩

/-- C7: evaluation of the generic-prerender handler at the failing input.
When `create_repo` fails and a Slack username is present, the code posts
only the first apology message and then raises `UnboundLocalError` (the
second message interpolates the unbound `repo_info`), so the original
provider exception does not propagate — contrary to the claim's two-message
re-raise behaviour.  When no username is present the claim's behaviour does
hold: no message is posted and the `GitHubException` propagates. -/
theorem handle_generic_prerender_failure_eval :
    ((handle_generic_prerender ⟨false, "https://github.com/lsst/afw"⟩
        ⟨"stack_package", ⟨some "lsst", some "afw", none⟩,
         some "someuser"⟩).1 = Except.error GenErr.unboundLocal ∧
     (handle_generic_prerender ⟨false, "https://github.com/lsst/afw"⟩
        ⟨"stack_package", ⟨some "lsst", some "afw", none⟩,
         some "someuser"⟩).2 =
       ⟨[GenMsg.repoApology "someuser"], 1, 0⟩) ∧
    ((handle_generic_prerender ⟨false, "https://github.com/lsst/afw"⟩
        ⟨"stack_package", ⟨some "lsst", some "afw", none⟩, none⟩).1 =
       Except.error GenErr.gitHubException ∧
     (handle_generic_prerender ⟨false, "https://github.com/lsst/afw"⟩
        ⟨"stack_package", ⟨some "lsst", some "afw", none⟩, none⟩).2 =
       ⟨[], 1, 0⟩) :=
  ⟨⟨rfl, rfl⟩, rfl, rfl⟩

end TemplatebotAide
